import Mathlib

/-!
Shallow embedding of the A2A task-protocol example servers and clients
(`examples/a2a/simple-server.js`, the blog example, and the simple client).

The JavaScript programs are event-loop concurrent but single-threaded; all
mutation of the shared `tasks` map happens through the `updateCallback`
closure and the `tasks/send` handler.  We embed the store as a function
`String → Option TaskData`, the update sink as a store transformer, and a
capability handler as the list of updates it emits through the sink (the
sink call is the handler's only effect).  The JavaScript event-loop ordering
matters in exactly one place: `executeTask` is invoked without `await`, so
its synchronous prefix — everything up to the first `await` suspension,
which includes the body of the first `updateCallback` call — runs before
`res.json` serializes the (aliased) task object.  `tasksSend` models this
by applying the first emitted update before building the response.
-/

namespace A2A

/-- Task lifecycle states (`submitted`/`working`/... string constants in the
JS source, a closed set). -/
inductive TaskState
  | submitted
  | working
  | completed
  | failed
  | canceled
  | rejected
  deriving DecidableEq

/-- A JavaScript number as the example manipulates it: an exact integer or
`NaN` (produced by adding `undefined`).  The example only ever adds two
integer-valued fields. -/
inductive JsNum
  | num (n : Int)
  | nan
  deriving DecidableEq

/-- JS string interpolation of a number (`${result}`). -/
def jsNumToString : JsNum → String
  | .num n => toString n
  | .nan => "NaN"

/-- A message part: `{type: 'text', text}` or `{type: 'data', data}` where the
data payload is a flat object of numeric fields (all the example needs). -/
inductive Part
  | text (s : String)
  | data (d : List (String × JsNum))
  deriving DecidableEq

/-- A protocol message: `{role, parts}`. -/
structure Message where
  role : String
  parts : List Part
  deriving DecidableEq

/-- An artifact: `{name, description?, parts}`. -/
structure Artifact where
  name : String
  description : Option String := none
  parts : List Part
  deriving DecidableEq

/-- `task.status`: `{state, timestamp, message?}`.  Timestamps
(`new Date().toISOString()`) are modelled as abstract clock readings. -/
structure TaskStatus where
  state : TaskState
  timestamp : Nat
  message : Option Message := none
  deriving DecidableEq

/-- The task object stored in the map and serialized in responses:
`{id, status, artifacts}` (history is kept beside it, not inside it). -/
structure Task where
  id : String
  status : TaskStatus
  artifacts : List Artifact
  deriving DecidableEq

/-- One entry of the `tasks` map: `{task, history}`. -/
structure TaskData where
  task : Task
  history : List Message
  deriving DecidableEq

/-- The in-memory `tasks` map.  The JS `Map` is used only through
`get`/`set` with string keys, so a partial function is a faithful model. -/
def TaskStore : Type := String → Option TaskData

/-- `tasks.get(id)`. -/
def tasksGet (s : TaskStore) (k : String) : Option TaskData := s k

/-- `tasks.set(id, v)`. -/
def tasksSet (s : TaskStore) (k : String) (v : TaskData) : TaskStore :=
  fun k2 => if k2 = k then some v else s k2

/-- The empty `tasks` map. -/
def emptyStore : TaskStore := fun _ => none

/-- A partial update handed to the update sink:
`{state?, message?, artifacts?}`. -/
structure Update where
  state : Option TaskState := none
  message : Option Message := none
  artifacts : Option (List Artifact) := none
  deriving DecidableEq

/-- The body of `updateCallback` once the record is found (simple-server.js
lines 129-144): overwrite `status.state`/`status.timestamp` when a state is
given, append the message to `history` and set `status.message` when a
message is given, and append any artifacts. -/
def applyTo (td : TaskData) (now : Nat) (u : Update) : TaskData :=
  let status1 : TaskStatus :=
    match u.state with
    | some s => { td.task.status with state := s, timestamp := now }
    | none => td.task.status
  let status2 : TaskStatus :=
    match u.message with
    | some m => { status1 with message := some m }
    | none => status1
  let history2 : List Message :=
    match u.message with
    | some m => td.history ++ [m]
    | none => td.history
  { task := { td.task with
      status := status2,
      artifacts := td.task.artifacts ++ u.artifacts.getD [] },
    history := history2 }

/-- `updateCallback` (simple-server.js lines 125-145): look the task up; if
it is absent, return silently with no effect; otherwise merge the update. -/
def updateCallback (store : TaskStore) (taskId : String) (now : Nat)
    (u : Update) : TaskStore :=
  match tasksGet store taskId with
  | none => store
  | some td => tasksSet store taskId (applyTo td now u)

/-- Apply a list of sink-emitted updates in order, one clock tick apart. -/
def applyUpdates (taskId : String) : TaskStore → Nat → List Update → TaskStore
  | store, _, [] => store
  | store, now, u :: us =>
      applyUpdates taskId (updateCallback store taskId now u) (now + 1) us

/-- The `working` progress message of the `add` skill. -/
def workingMessage : Message :=
  ⟨"agent", [.text "Calculating sum..."]⟩

/-- `userMessage.parts.find(p => p.type === 'data')` followed by
`dataPart?.data || {}`. -/
def extractParams (m : Message) : List (String × JsNum) :=
  match m.parts.find? (fun p => match p with | Part.data _ => true | _ => false) with
  | some (Part.data d) => d
  | _ => []

/-- JS object property read `params.k` on the extracted data object. -/
def objGet (o : List (String × JsNum)) (k : String) : Option JsNum :=
  (o.find? (fun e => e.1 = k)).map (fun e => e.2)

/-- JS `params.a + params.b`: integer addition when both fields are present
integers, `NaN` otherwise (`undefined + x` is `NaN`). -/
def jsAdd : Option JsNum → Option JsNum → JsNum
  | some (.num a), some (.num b) => .num (a + b)
  | _, _ => .nan

/-- `params.a + params.b` for the `add` skill. -/
def addResult (m : Message) : JsNum :=
  jsAdd (objGet (extractParams m) "a") (objGet (extractParams m) "b")

/-- The completion message of the `add` skill. -/
def completedMessage (m : Message) : Message :=
  ⟨"agent", [.text ("The sum is " ++ jsNumToString (addResult m))]⟩

/-- The single artifact the `add` skill attaches on completion. -/
def resultArtifact (m : Message) : Artifact :=
  ⟨"calculation_result", none, [.data [("result", addResult m)]]⟩

/-- The failure message of the unknown-skill branch. -/
def failedMessage (skillId : String) : Message :=
  ⟨"agent", [.text ("Unknown skill: " ++ skillId)]⟩

/-- First update of the `add` branch: emit `working`. -/
def addWorkingUpdate : Update :=
  ⟨some .working, some workingMessage, none⟩

/-- Second update of the `add` branch: emit `completed` with the result
artifact. -/
def addCompletedUpdate (m : Message) : Update :=
  ⟨some .completed, some (completedMessage m), some [resultArtifact m]⟩

/-- The single update of the default (unknown skill) branch: emit `failed`. -/
def failedUpdate (skillId : String) : Update :=
  ⟨some .failed, some (failedMessage skillId), none⟩

/-- `handleTask` (simple-server.js lines 63-110), summarized as the sequence
of updates it pushes through the sink: the `add` case emits `working` then
`completed` (with the sum artifact); any other skill id falls to the default
branch and emits a single `failed` update naming the unknown skill. -/
def handleTask (skillId : String) (userMessage : Message) : List Update :=
  if skillId = "add" then
    [addWorkingUpdate, addCompletedUpdate userMessage]
  else
    [failedUpdate skillId]

/-- `isCancelled` probe handed to the handler (simple-server.js lines
118-121): whether the stored record's state is `canceled` (`undefined ===
'canceled'` is false when the task is absent). -/
def isCancelled (store : TaskStore) (taskId : String) : Bool :=
  match tasksGet store taskId with
  | some td => decide (td.task.status.state = TaskState.canceled)
  | none => false

/-- A JSON-RPC request/response `id` value as the examples exercise it:
a string, a number, or JSON null (also standing for an absent field). -/
inductive JsonId
  | str (s : String)
  | num (n : Int)
  | null
  deriving DecidableEq

/-- JS truthiness of an id value: `null`, `0` and `""` are falsy. -/
def jsTruthy : JsonId → Bool
  | .str s => !(s == "")
  | .num n => !(n == 0)
  | .null => false

/-- The `params` object of a request, with absent JSON fields defaulted the
way the destructuring handlers observe them (`skill`/`taskId` compared
against strings, `includeHistory` used as a boolean). -/
structure Params where
  skill : String := ""
  message : Message := ⟨"", []⟩
  taskId : String := ""
  includeHistory : Bool := false
  deriving DecidableEq

/-- A request envelope `{method, params, id}` as parsed from the POST body. -/
structure Request where
  method : String
  params : Params
  id : JsonId
  deriving DecidableEq

/-- A JSON-RPC error object `{code, message, data?}`. -/
structure ErrorObj where
  code : Int
  message : String
  data : Option String := none
  deriving DecidableEq

/-- The `result` payload of a successful response: the task object, plus the
`history` field that `tasks/get` copies in when `includeHistory` is set
(`tasks/send` responses never carry one). -/
structure TaskView where
  task : Task
  history : Option (List Message) := none
  deriving DecidableEq

/-- A response envelope together with the HTTP status it is sent with. -/
structure Response where
  jsonrpc : String := "2.0"
  httpStatus : Nat
  result : Option TaskView := none
  error : Option ErrorObj := none
  id : JsonId
  deriving DecidableEq

/-- The fresh record built by `tasks/send`:
`{id, status: {state: 'submitted', timestamp}, artifacts: []}`. -/
def initialTask (fid : String) (now : Nat) : Task :=
  ⟨fid, ⟨.submitted, now, none⟩, []⟩

/-- The store right after `tasks.set(taskId, {task, history: [message]})` in
the `tasks/send` case. -/
def sendStore (store0 : TaskStore) (fid : String) (now : Nat) (p : Params) :
    TaskStore :=
  tasksSet store0 fid ⟨initialTask fid now, [p.message]⟩

/-- The store after `tasks/send` has created the record and the first `k`
sink updates of the spawned handler have been applied. -/
def storeAfter (store0 : TaskStore) (fid : String) (now : Nat) (p : Params)
    (k : Nat) : TaskStore :=
  applyUpdates fid (sendStore store0 fid now p) now
    ((handleTask p.skill p.message).take k)

/-- The created task's state after the first `k` sink updates. -/
def stateAfter (store0 : TaskStore) (fid : String) (now : Nat) (p : Params)
    (k : Nat) : Option TaskState :=
  (tasksGet (storeAfter store0 fid now p k) fid).map
    (fun td => td.task.status.state)

/-- The store once the spawned handler has run to completion. -/
def finalStore (store0 : TaskStore) (fid : String) (now : Nat) (p : Params) :
    TaskStore :=
  applyUpdates fid (sendStore store0 fid now p) now
    (handleTask p.skill p.message)

/-- The `tasks/send` case (simple-server.js lines 167-196).  The handler
stores the fresh `submitted` record and calls `executeTask` without
awaiting it; `executeTask`'s synchronous prefix (up to the first `await`
suspension) runs the body of the handler's first `updateCallback` call, and
only then does `res.json` serialize the `task` object — the very object the
callback mutates through the store.  So the response snapshot is the stored
record after the first emitted update. -/
def tasksSend (store : TaskStore) (fid : String) (now : Nat) (p : Params)
    (reqId : JsonId) : Response × TaskStore :=
  let store2 := storeAfter store fid now p 1
  let snapshot :=
    match tasksGet store2 fid with
    | some td => td.task
    | none => initialTask fid now
  ({ httpStatus := 200, result := some ⟨snapshot, none⟩, id := reqId }, store2)

/-- The `tasks/get` case (simple-server.js lines 199-225): unknown ids get
the `-32002` error envelope with HTTP 404; otherwise a snapshot of the
record, with `history` attached only when `includeHistory` is set. -/
def tasksGetHandler (store : TaskStore) (p : Params) (reqId : JsonId) :
    Response :=
  match tasksGet store p.taskId with
  | none =>
      { httpStatus := 404, error := some ⟨-32002, "Task not found", none⟩,
        id := reqId }
  | some td =>
      { httpStatus := 200,
        result := some ⟨td.task,
          if p.includeHistory then some td.history else none⟩,
        id := reqId }

/-- The method switch of the `/api` endpoint (simple-server.js lines
162-248): route on the method string, with unknown methods answered by the
`-32601` envelope. -/
def handlePost (store : TaskStore) (fid : String) (now : Nat)
    (req : Request) : Response × TaskStore :=
  if req.method = "tasks/send" then
    tasksSend store fid now req.params req.id
  else if req.method = "tasks/get" then
    (tasksGetHandler store req.params req.id, store)
  else
    ({ httpStatus := 404, error := some ⟨-32601, "Method not found", none⟩,
       id := req.id }, store)

/-- `authenticateApiKey`'s acceptance condition (simple-server.js lines
45-60): the request passes iff the `x-api-key` header is present and equals
`test-api-key` (the `!apiKey` falsiness check is subsumed, since the empty
string differs from the key). -/
def apiKeyOk : Option String → Bool
  | some k => k == "test-api-key"
  | none => false

/-- One full server interaction on `/api`: the authentication middleware
runs first and, on failure, answers with the `-32001` envelope whose id is
`req.body?.id || null` (falsy ids are replaced by JSON null) without
touching the store; otherwise the method switch runs. -/
def serverHandle (store : TaskStore) (apiKey : Option String) (fid : String)
    (now : Nat) (req : Request) : Response × TaskStore :=
  if apiKeyOk apiKey then
    handlePost store fid now req
  else
    ({ httpStatus := 401, error := some ⟨-32001, "Authentication failed", none⟩,
       id := if jsTruthy req.id then req.id else .null }, store)

/-- Outcome of one iteration of a client polling loop once the task snapshot
has been fetched: return the record to the caller (`return task`), abort the
wait with a thrown error, or sleep and poll again. -/
inductive PollOutcome
  | done (t : Task)
  | failure (msg : String)
  | keepPolling
  deriving DecidableEq

/-- `task.status.message?.parts[0]?.text`: the text of the first part of the
last status message, when the message exists, has a first part, and that
part is a text part. -/
def firstPartText : Option Message → Option String
  | some m =>
      match m.parts with
      | Part.text s :: _ => some s
      | _ => none
  | none => none

/-- `task.status.message?.parts[0]?.text || 'Unknown error'` in
`A2AClient.waitForCompletion`: the `||` also replaces an empty text. -/
def a2aErrorText (t : Task) : String :=
  match firstPartText t.status.message with
  | some s => if s = "" then "Unknown error" else s
  | none => "Unknown error"

/-- The terminal-state branch of `A2AClient.waitForCompletion`
(simple-client, lines 104-116 of the source): all four states are terminal;
`failed` and `rejected` throw `Task failed: ...`, every other terminal state
returns the record; non-terminal states poll again. -/
def a2aCheckTask (t : Task) : PollOutcome :=
  if t.status.state = .completed ∨ t.status.state = .failed ∨
      t.status.state = .canceled ∨ t.status.state = .rejected then
    if t.status.state = .failed ∨ t.status.state = .rejected then
      .failure ("Task failed: " ++ a2aErrorText t)
    else
      .done t
  else
    .keepPolling

/-- `task.status.message?.parts[0]?.text` interpolated into the error string
of `BlogClient.waitForCompletion`: an absent text interpolates as the string
`undefined`, with no fallback for an empty text. -/
def blogErrorText (t : Task) : String :=
  match firstPartText t.status.message with
  | some s => s
  | none => "undefined"

/-- The terminal-state branch of `BlogClient.waitForCompletion` (blog
example, lines 370-391): only `completed`/`failed`/`canceled` count as
terminal (`rejected` keeps polling), and only `failed` throws. -/
def blogCheckTask (t : Task) : PollOutcome :=
  if t.status.state = .completed ∨ t.status.state = .failed ∨
      t.status.state = .canceled then
    if t.status.state = .failed then
      .failure ("Task failed: " ++ blogErrorText t)
    else
      .done t
  else
    .keepPolling

/-- The user message the simple client builds for `add` with data
`{a: 5, b: 3}`. -/
def addMessage : Message :=
  ⟨"user", [.text "Please execute skill: add",
            .data [("a", .num 5), ("b", .num 3)]]⟩

/-- `tasks/send` params for the `add {a: 5, b: 3}` scenario. -/
def addParams : Params :=
  ⟨"add", addMessage, "", false⟩

/-- The full `tasks/send` request for the `add {a: 5, b: 3}` scenario. -/
def addRequest : Request :=
  ⟨"tasks/send", addParams, .str "1"⟩

/-- A concrete task snapshot in the `canceled` state, as a poller would
receive it. -/
def canceledTask : Task :=
  ⟨"task-9", ⟨.canceled, 0, none⟩, []⟩

/-- Terminal states of the §4.4 state machine. -/
def isTerminal : TaskState → Bool
  | .completed => true
  | .failed => true
  | .canceled => true
  | .rejected => true
  | _ => false

theorem tasksGet_tasksSet_self (s : TaskStore) (k : String) (v : TaskData) :
    tasksGet (tasksSet s k v) k = some v := by
  simp [tasksGet, tasksSet]

theorem handleTask_add (m : Message) :
    handleTask "add" m = [addWorkingUpdate, addCompletedUpdate m] := by
  simp [handleTask]

theorem handleTask_unknown (sk : String) (m : Message) (h : sk ≠ "add") :
    handleTask sk m = [failedUpdate sk] := by
  simp [handleTask, h]

theorem storeAfter_get_zero (store0 : TaskStore) (fid : String) (now : Nat)
    (p : Params) :
    tasksGet (storeAfter store0 fid now p 0) fid =
      some ⟨initialTask fid now, [p.message]⟩ := by
  simp [storeAfter, applyUpdates, sendStore, tasksGet_tasksSet_self]

theorem storeAfter_get_add_one (store0 : TaskStore) (fid : String) (now : Nat)
    (p : Params) (h : p.skill = "add") :
    tasksGet (storeAfter store0 fid now p 1) fid =
      some ⟨⟨fid, ⟨.working, now, some workingMessage⟩, []⟩,
            [p.message, workingMessage]⟩ := by
  simp [storeAfter, h, handleTask_add, applyUpdates, updateCallback,
    sendStore, tasksGet_tasksSet_self, applyTo, addWorkingUpdate,
    initialTask]

theorem storeAfter_get_add_big (store0 : TaskStore) (fid : String) (now : Nat)
    (p : Params) (h : p.skill = "add") (k : Nat) :
    tasksGet (storeAfter store0 fid now p (k + 2)) fid =
      some ⟨⟨fid, ⟨.completed, now + 1, some (completedMessage p.message)⟩,
              [resultArtifact p.message]⟩,
            [p.message, workingMessage, completedMessage p.message]⟩ := by
  simp [storeAfter, h, handleTask_add, applyUpdates, updateCallback,
    sendStore, tasksGet_tasksSet_self, applyTo, addWorkingUpdate,
    addCompletedUpdate, initialTask, List.take_succ_cons]

theorem storeAfter_get_unknown (store0 : TaskStore) (fid : String)
    (now : Nat) (p : Params) (h : p.skill ≠ "add") (k : Nat) :
    tasksGet (storeAfter store0 fid now p (k + 1)) fid =
      some ⟨⟨fid, ⟨.failed, now, some (failedMessage p.skill)⟩, []⟩,
            [p.message, failedMessage p.skill]⟩ := by
  simp [storeAfter, handleTask_unknown p.skill p.message h, applyUpdates,
    updateCallback, sendStore, tasksGet_tasksSet_self, applyTo,
    failedUpdate, initialTask, List.take_succ_cons]

theorem stateAfter_zero (store0 : TaskStore) (fid : String) (now : Nat)
    (p : Params) :
    stateAfter store0 fid now p 0 = some .submitted := by
  simp [stateAfter, storeAfter_get_zero, initialTask]

theorem stateAfter_add_one (store0 : TaskStore) (fid : String) (now : Nat)
    (p : Params) (h : p.skill = "add") :
    stateAfter store0 fid now p 1 = some .working := by
  simp [stateAfter, storeAfter_get_add_one store0 fid now p h]

theorem stateAfter_add_big (store0 : TaskStore) (fid : String) (now : Nat)
    (p : Params) (h : p.skill = "add") (k : Nat) :
    stateAfter store0 fid now p (k + 2) = some .completed := by
  simp [stateAfter, storeAfter_get_add_big store0 fid now p h k]

theorem stateAfter_unknown (store0 : TaskStore) (fid : String) (now : Nat)
    (p : Params) (h : p.skill ≠ "add") (k : Nat) :
    stateAfter store0 fid now p (k + 1) = some .failed := by
  simp [stateAfter, storeAfter_get_unknown store0 fid now p h k]

theorem handlePost_id (store : TaskStore) (fid : String) (now : Nat)
    (req : Request) : (handlePost store fid now req).1.id = req.id := by
  unfold handlePost tasksSend tasksGetHandler
  by_cases h1 : req.method = "tasks/send"
  · simp [h1]
  · by_cases h2 : req.method = "tasks/get"
    · simp [h1, h2]
      cases tasksGet store req.params.taskId <;> simp
    · simp [h1, h2]

/-- Claim C1: the claim says an authenticated `tasks/send` responds with the
Task Record in state `submitted` and history of length 1, but the code
serializes the aliased `task` object only after `executeTask`'s synchronous
prefix has applied the handler's first sink update: for the `add` skill the
response state is `working` and the stored history already holds two
messages. -/
theorem tasksSend_add_responds_working :
    ((serverHandle emptyStore (some "test-api-key") "task-1" 0
        addRequest).1.result.map (fun v => v.task.status.state)) =
      some TaskState.working ∧
    (((serverHandle emptyStore (some "test-api-key") "task-1" 0
        addRequest).2) "task-1").map (fun td => td.history.length) =
      some 2 :=
  ⟨rfl, rfl⟩

/-- Claim C2, counterexample: a poll observing the terminal state `canceled`
returns the record to the caller in both clients instead of failing with an
error as the claim requires. -/
theorem waitForCompletion_canceled_returns_record :
    a2aCheckTask canceledTask = PollOutcome.done canceledTask ∧
    blogCheckTask canceledTask = PollOutcome.done canceledTask :=
  ⟨rfl, rfl⟩

/-- Claim C2, amended: on observing a terminal state, `A2AClient` returns
the record on `completed` and on `canceled`, and fails with an error
carrying the agent's last status message on `failed` and `rejected`;
`BlogClient` returns the record on `completed` and `canceled`, fails only on
`failed`, and does not treat `rejected` as terminal (it keeps polling). -/
theorem waitForCompletion_terminal_behavior (t : Task) :
    (t.status.state = .completed → a2aCheckTask t = .done t) ∧
    (t.status.state = .canceled → a2aCheckTask t = .done t) ∧
    (t.status.state = .failed →
      a2aCheckTask t = .failure ("Task failed: " ++ a2aErrorText t)) ∧
    (t.status.state = .rejected →
      a2aCheckTask t = .failure ("Task failed: " ++ a2aErrorText t)) ∧
    (t.status.state = .completed → blogCheckTask t = .done t) ∧
    (t.status.state = .canceled → blogCheckTask t = .done t) ∧
    (t.status.state = .failed →
      blogCheckTask t = .failure ("Task failed: " ++ blogErrorText t)) ∧
    (t.status.state = .rejected → blogCheckTask t = .keepPolling) := by
  refine ⟨?_, ?_, ?_, ?_, ?_, ?_, ?_, ?_⟩ <;> intro h <;>
    simp [a2aCheckTask, blogCheckTask, h]

/-- Witness for the amended Claim C2 at a concrete `canceled` snapshot. -/
theorem waitForCompletion_terminal_behavior_witness :
    canceledTask.status.state = TaskState.canceled ∧
    a2aCheckTask canceledTask = PollOutcome.done canceledTask :=
  ⟨rfl, (waitForCompletion_terminal_behavior canceledTask).2.1 rfl⟩

/-- Claim C3, counterexample: applying an update for an id that is not in
the store leaves the store unchanged and raises nothing — `updateCallback`
takes the silent `if (!taskData) return;` exit, so no `NotFound` is
signalled to its caller. -/
theorem updateCallback_unknown_id_is_silent :
    tasksGet emptyStore "missing-task" = none ∧
    updateCallback emptyStore "missing-task" 0
      ⟨some .completed, none, none⟩ = emptyStore :=
  ⟨rfl, rfl⟩

/-- Claim C3, amended: an update for an id absent from the Task Store is
silently ignored — the store is returned unchanged and the caller receives
no `NotFound` signal. -/
theorem updateCallback_unknown_id_noop (store : TaskStore) (taskId : String)
    (now : Nat) (u : Update) (h : tasksGet store taskId = none) :
    updateCallback store taskId now u = store := by
  unfold updateCallback
  rw [h]

/-- Witness for the amended Claim C3 at a concrete absent id. -/
theorem updateCallback_unknown_id_noop_witness :
    updateCallback emptyStore "ghost" 5 ⟨some .working, none, none⟩ =
      emptyStore :=
  updateCallback_unknown_id_noop emptyStore "ghost" 5
    ⟨some .working, none, none⟩ rfl

/-- Claim C4, counterexample: a request failing authentication whose id is
the empty string is answered with id `null`, not the request id verbatim
(`req.body?.id || null` drops falsy ids). -/
theorem auth_failure_drops_falsy_id :
    (serverHandle emptyStore none "t" 0
      ⟨"tasks/get", ⟨"", ⟨"", []⟩, "", false⟩, .str ""⟩).1.id =
      JsonId.null ∧
    JsonId.null ≠ JsonId.str "" :=
  ⟨rfl, by decide⟩

/-- Claim C4, amended: authenticated requests are answered with the request
id echoed verbatim on every dispatch path; requests failing authentication
are answered with the request id only when it is truthy, and with `null`
otherwise. -/
theorem response_id_echo (store : TaskStore) (key : Option String)
    (fid : String) (now : Nat) (req : Request) :
    (apiKeyOk key = true →
      (serverHandle store key fid now req).1.id = req.id) ∧
    (apiKeyOk key = false →
      (serverHandle store key fid now req).1.id =
        (if jsTruthy req.id then req.id else JsonId.null)) := by
  constructor <;> intro h <;> simp [serverHandle, h, handlePost_id]

/-- Witness for the amended Claim C4 on a concrete authenticated request and
a concrete rejected one. -/
theorem response_id_echo_witness :
    apiKeyOk (some "test-api-key") = true ∧
    (serverHandle emptyStore (some "test-api-key") "task-1" 0
      addRequest).1.id = JsonId.str "1" ∧
    apiKeyOk none = false ∧
    (serverHandle emptyStore none "task-1" 0 addRequest).1.id =
      JsonId.str "1" :=
  ⟨rfl,
   (response_id_echo emptyStore (some "test-api-key") "task-1" 0
      addRequest).1 rfl,
   rfl,
   (response_id_echo emptyStore none "task-1" 0 addRequest).2 rfl⟩

/-- Claim C5: once the record created by a `tasks/send` reaches a terminal
state, no later sink update changes its state — across successive
observations the state never leaves a terminal state. -/
theorem terminal_state_stable (store0 : TaskStore) (fid : String) (now : Nat)
    (p : Params) (i j : Nat) (hij : i ≤ j) (s : TaskState)
    (hterm : isTerminal s = true)
    (hi : stateAfter store0 fid now p i = some s) :
    stateAfter store0 fid now p j = some s := by
  by_cases hadd : p.skill = "add"
  · by_cases h2 : 2 ≤ i
    · obtain ⟨i', rfl⟩ : ∃ i', i = i' + 2 := ⟨i - 2, by omega⟩
      rw [stateAfter_add_big store0 fid now p hadd i'] at hi
      injection hi with hs
      subst hs
      obtain ⟨j', rfl⟩ : ∃ j', j = j' + 2 := ⟨j - 2, by omega⟩
      exact stateAfter_add_big store0 fid now p hadd j'
    · have hi01 : i = 0 ∨ i = 1 := by omega
      rcases hi01 with rfl | rfl
      · rw [stateAfter_zero] at hi
        injection hi with hs
        subst hs
        exact absurd hterm (by decide)
      · rw [stateAfter_add_one store0 fid now p hadd] at hi
        injection hi with hs
        subst hs
        exact absurd hterm (by decide)
  · by_cases h1 : 1 ≤ i
    · obtain ⟨i', rfl⟩ : ∃ i', i = i' + 1 := ⟨i - 1, by omega⟩
      rw [stateAfter_unknown store0 fid now p hadd i'] at hi
      injection hi with hs
      subst hs
      obtain ⟨j', rfl⟩ : ∃ j', j = j' + 1 := ⟨j - 1, by omega⟩
      exact stateAfter_unknown store0 fid now p hadd j'
    · have hi0 : i = 0 := by omega
      subst hi0
      rw [stateAfter_zero] at hi
      injection hi with hs
      subst hs
      exact absurd hterm (by decide)

/-- Witness for Claim C5 on the concrete `add` scenario at observation
points 2 and 3. -/
theorem terminal_state_stable_witness :
    (2 : Nat) ≤ 3 ∧ isTerminal TaskState.completed = true ∧
    stateAfter emptyStore "task-1" 0 addParams 2 = some TaskState.completed ∧
    stateAfter emptyStore "task-1" 0 addParams 3 = some TaskState.completed :=
  ⟨by decide, by decide, by decide,
   terminal_state_stable emptyStore "task-1" 0 addParams 2 3 (by decide)
     TaskState.completed (by decide) (by decide)⟩

/-- Claim C6: a `tasks/send` whose skill id is not registered makes the
handler emit exactly one update, a `failed` one whose status message names
the unknown skill, and the record never has state `working`. -/
theorem unknown_skill_fails_without_working (store0 : TaskStore)
    (fid : String) (now : Nat) (p : Params) (h : p.skill ≠ "add") :
    handleTask p.skill p.message =
      [⟨some .failed,
        some ⟨"agent", [.text ("Unknown skill: " ++ p.skill)]⟩, none⟩] ∧
    (∀ k, stateAfter store0 fid now p k ≠ some .working) := by
  constructor
  · rw [handleTask_unknown p.skill p.message h]
    rfl
  · intro k
    by_cases hk : 1 ≤ k
    · obtain ⟨k', rfl⟩ : ∃ k', k = k' + 1 := ⟨k - 1, by omega⟩
      rw [stateAfter_unknown store0 fid now p h k']
      simp
    · have hk0 : k = 0 := by omega
      subst hk0
      rw [stateAfter_zero]
      simp

/-- Witness for Claim C6 at the unregistered skill id `subtract`. -/
theorem unknown_skill_fails_without_working_witness :
    ("subtract" : String) ≠ "add" ∧
    stateAfter emptyStore "task-1" 0 ⟨"subtract", addMessage, "", false⟩ 1 ≠
      some TaskState.working :=
  ⟨by decide,
   (unknown_skill_fails_without_working emptyStore "task-1" 0
      ⟨"subtract", addMessage, "", false⟩ (by decide)).2 1⟩

/-- Claim C7: an authenticated `tasks/get` for an id absent from the task
map is answered by the distinct `-32002` "Task not found" error envelope
(HTTP 404), never a success payload, and the store is untouched. -/
theorem tasks_get_unknown_id_not_found (store : TaskStore)
    (key : Option String) (fid : String) (now : Nat) (p : Params)
    (reqId : JsonId) (hauth : apiKeyOk key = true)
    (h : tasksGet store p.taskId = none) :
    (serverHandle store key fid now ⟨"tasks/get", p, reqId⟩).1 =
      ⟨"2.0", 404, none, some ⟨-32002, "Task not found", none⟩, reqId⟩ ∧
    (serverHandle store key fid now ⟨"tasks/get", p, reqId⟩).2 = store := by
  constructor <;> simp [serverHandle, hauth, handlePost, tasksGetHandler, h]

/-- Witness for Claim C7 at a concrete unknown task id. -/
theorem tasks_get_unknown_id_not_found_witness :
    apiKeyOk (some "test-api-key") = true ∧
    tasksGet emptyStore "no-such-task" = none ∧
    (serverHandle emptyStore (some "test-api-key") "task-1" 0
        ⟨"tasks/get", ⟨"", ⟨"", []⟩, "no-such-task", false⟩, .str "7"⟩).1 =
      ⟨"2.0", 404, none, some ⟨-32002, "Task not found", none⟩, .str "7"⟩ :=
  ⟨rfl, rfl,
   (tasks_get_unknown_id_not_found emptyStore (some "test-api-key") "task-1"
      0 ⟨"", ⟨"", []⟩, "no-such-task", false⟩ (.str "7") rfl rfl).1⟩

/-- Claim C8: a request whose `x-api-key` header is missing or wrong is
answered by the `-32001` authentication-error envelope before any method
dispatch, with no success payload and the task map unchanged. -/
theorem auth_failure_no_side_effect (store : TaskStore) (key : Option String)
    (fid : String) (now : Nat) (req : Request)
    (h : apiKeyOk key = false) :
    (serverHandle store key fid now req).1 =
      ⟨"2.0", 401, none, some ⟨-32001, "Authentication failed", none⟩,
        if jsTruthy req.id then req.id else JsonId.null⟩ ∧
    (serverHandle store key fid now req).2 = store := by
  constructor <;> simp [serverHandle, h]

/-- Witness for Claim C8 at a concrete request with no `x-api-key` header. -/
theorem auth_failure_no_side_effect_witness :
    apiKeyOk none = false ∧
    (serverHandle emptyStore none "task-1" 0 addRequest).2 = emptyStore :=
  ⟨rfl, (auth_failure_no_side_effect emptyStore none "task-1" 0 addRequest
    rfl).2⟩

/-- Claim C9: sending the `add` capability with data `{a: 5, b: 3}` and
letting the task run to its terminal state yields state `completed` with
exactly one artifact whose single data part is `{result: 8}`. -/
theorem add_scenario_completes_with_result_8 :
    (tasksGet (finalStore emptyStore "task-1" 0 addParams) "task-1").map
      (fun td => (td.task.status.state, td.task.artifacts)) =
      some (TaskState.completed,
        [⟨"calculation_result", none, [Part.data [("result", JsNum.num 8)]]⟩]) ∧
    (tasksGet (finalStore emptyStore "task-1" 0 addParams) "task-1").map
      (fun td => isTerminal td.task.status.state) = some true :=
  ⟨rfl, rfl⟩

/-- Claim C10: along the whole evolution triggered by any `tasks/send`, the
created record is never in state `canceled`, so the cooperative probe
`isCancelled` answers `false` at every point. -/
theorem canceled_unreachable (store0 : TaskStore) (fid : String) (now : Nat)
    (p : Params) (k : Nat) :
    stateAfter store0 fid now p k ≠ some TaskState.canceled ∧
    isCancelled (storeAfter store0 fid now p k) fid = false := by
  by_cases hadd : p.skill = "add"
  · by_cases h2 : 2 ≤ k
    · obtain ⟨k', rfl⟩ : ∃ k', k = k' + 2 := ⟨k - 2, by omega⟩
      constructor
      · rw [stateAfter_add_big store0 fid now p hadd k']
        simp
      · simp [isCancelled, storeAfter_get_add_big store0 fid now p hadd k']
    · have hk01 : k = 0 ∨ k = 1 := by omega
      rcases hk01 with rfl | rfl
      · constructor
        · rw [stateAfter_zero]
          simp
        · simp [isCancelled, storeAfter_get_zero, initialTask]
      · constructor
        · rw [stateAfter_add_one store0 fid now p hadd]
          simp
        · simp [isCancelled, storeAfter_get_add_one store0 fid now p hadd]
  · by_cases h1 : 1 ≤ k
    · obtain ⟨k', rfl⟩ : ∃ k', k = k' + 1 := ⟨k - 1, by omega⟩
      constructor
      · rw [stateAfter_unknown store0 fid now p hadd k']
        simp
      · simp [isCancelled, storeAfter_get_unknown store0 fid now p hadd k']
    · have hk0 : k = 0 := by omega
      subst hk0
      constructor
      · rw [stateAfter_zero]
        simp
      · simp [isCancelled, storeAfter_get_zero, initialTask]

end A2A
